import Mathlib

/-!
Verification development for the profitbricks Ansible modules
(profitbricks.py, profitbricks_nic.py, profitbricks_volume.py).

The modules are shallowly embedded: vendor API resources become plain
records carrying the fields the modules inspect, the SDK client is an
environment (lists fetched once, create calls recorded as a trace), and
each module function that a claim cites is translated into a Lean
function mirroring its control flow.
-/

namespace ProfitBricks

/-- A vendor API resource as the resolvers see it: the modules read only
the top-level id and the name stored in the properties bag. -/
structure Resource where
  id : String
  name : String
deriving DecidableEq

/-- Python regex word class: re \w with re.I is [A-Za-z0-9_]. -/
def isWordChar (c : Char) : Bool :=
  c.isAlpha || c.isDigit || c = '_'

/-- Consume exactly n word characters from the front of the list,
returning the rest, or none when a non-word character appears early. -/
def wordRun : Nat → List Char → Option (List Char)
  | 0, cs => some cs
  | _ + 1, [] => none
  | n + 1, c :: cs => if isWordChar c then wordRun n cs else none

/-- Consume a hyphen. -/
def dashRun : List Char → Option (List Char)
  | '-' :: cs => some cs
  | _ => none

/-- Embedding of the compiled pattern
re.compile of 8-4-4-4-12 word-character groups joined by hyphens, used
through re.match, which anchors at the start of the string only: a
string is UUID-shaped when its first 36 characters fit the pattern. -/
def uuid_match (s : String) : Bool :=
  ((((((((wordRun 8 s.toList).bind dashRun).bind
    (wordRun 4)).bind dashRun).bind
    (wordRun 4)).bind dashRun).bind
    (wordRun 4)).bind dashRun).bind (wordRun 12) |>.isSome

/-- profitbricks.py _get_datacenter_id: first datacenter whose
properties name or id equals the identity. -/
def _get_datacenter_id (datacenters : List Resource) (identity : String) : Option String :=
  match datacenters with
  | [] => none
  | d :: rest =>
    if identity = d.name ∨ identity = d.id then some d.id
    else _get_datacenter_id rest identity

/-- profitbricks.py _get_server_id: first server whose properties name
or id equals the identity. -/
def _get_server_id (servers : List Resource) (identity : String) : Option String :=
  match servers with
  | [] => none
  | s :: rest =>
    if identity = s.name ∨ identity = s.id then some s.id
    else _get_server_id rest identity

/-- profitbricks.py _get_instance: first resource whose properties name
or id equals the identity, returning the resource itself. -/
def _get_instance (instance_list : List Resource) (identity : String) : Option Resource :=
  match instance_list with
  | [] => none
  | r :: rest =>
    if identity = r.name ∨ identity = r.id then some r
    else _get_instance rest identity

/-- profitbricks_volume.py _get_instance_id: first resource whose
properties name or id equals the identity, returning its id. -/
def _get_instance_id (instance_list : List Resource) (identity : String) : Option String :=
  match instance_list with
  | [] => none
  | i :: rest =>
    if identity = i.name ∨ identity = i.id then some i.id
    else _get_instance_id rest identity

/-- profitbricks_nic.py datacenter resolution pattern (create_nic,
update_nic, delete_nic): a UUID-shaped string bypasses the scan and is
used as the id directly; otherwise the first name match replaces it,
and a string with no match is left unchanged. -/
def resolve_by_uuid_or_name (identity : String) (items : List Resource) : String :=
  if uuid_match identity then identity
  else
    match items.find? (fun r => identity = r.name) with
    | some r => r.id
    | none => identity

/-- Status field of a polled request, operation_result metadata status. -/
inductive Status
  | QUEUED
  | RUNNING
  | DONE
  | FAILED
deriving DecidableEq

/-- Outcome of _wait_for_completion: a plain return, the exception
raised on a FAILED poll (carrying the msg argument and the request id
that the message interpolates), or the exception raised when the
deadline elapses (same data, distinct constructor). -/
inductive WaitOutcome
  | success
  | opFailed (msg requestId : String)
  | timedOut (msg requestId : String)
deriving DecidableEq

/-- The while loop of _wait_for_completion. Time is explicit: each
iteration first checks deadline > t, then sleeps 5 time units and polls
once; polls is the sequence of statuses the vendor reports, indexed by
poll number. The second component counts polls actually issued, an
observation the claims quantify over. -/
def waitLoop (polls : Nat → Status) (msg requestId : String)
    (deadline t : Int) (k : Nat) : WaitOutcome × Nat :=
  if _h : deadline > t then
    match polls k with
    | Status.DONE => (WaitOutcome.success, k + 1)
    | Status.FAILED => (WaitOutcome.opFailed msg requestId, k + 1)
    | _ => waitLoop polls msg requestId deadline (t + 5) (k + 1)
  else
    (WaitOutcome.timedOut msg requestId, k)
termination_by (deadline - t).toNat
decreasing_by simp_wf; omega

/-- _wait_for_completion (identical in all three modules): an empty
promise returns at once; otherwise the deadline is the call time t0
plus wait_timeout and the loop runs. -/
def _wait_for_completion (t0 : Int) (promise : Option String)
    (polls : Nat → Status) (wait_timeout : Int) (msg : String) : WaitOutcome × Nat :=
  match promise with
  | none => (WaitOutcome.success, 0)
  | some requestId => waitLoop polls msg requestId (t0 + wait_timeout) t0 0

/-- Result of a create reconciliation run: the changed flag, the
resources reported back (existing or freshly created), and the trace of
create calls issued, as the names they carried. -/
structure CreateRun where
  changed : Bool
  machines : List Resource
  createCalls : List String
deriving DecidableEq

/-- The per-name loop of create_virtual_machine: the server list is
fetched once before the loop; a name that _get_instance resolves is
appended unchanged, otherwise _create_machine runs and the re-fetched
server is appended and changed is set. The remote API is the
environment: a create call for a name yields a server carrying that
name and the fresh id freshId name. -/
def create_virtual_machine (server_list : List Resource)
    (freshId : String → String) : List String → CreateRun
  | [] => ⟨false, [], []⟩
  | n :: rest =>
    let r := create_virtual_machine server_list freshId rest
    match _get_instance server_list n with
    | some s => ⟨r.changed, s :: r.machines, r.createCalls⟩
    | none => ⟨true, Resource.mk (freshId n) n :: r.machines, n :: r.createCalls⟩

/-- Result of create_nic: changed flag, the id of the NIC reported
back, and the number of create calls issued. -/
structure NicCreateRun where
  changed : Bool
  nicId : String
  createCalls : Nat
deriving DecidableEq

/-- create_nic after datacenter and server resolution: the NIC list is
scanned for a properties name match only; a hit returns changed false
with the existing NIC, a miss issues the create call, waits when
requested and re-fetches (the re-fetched NIC keeps the fresh id). -/
def create_nic (nic_list : List Resource) (freshId : String)
    (name : String) : NicCreateRun :=
  match nic_list.find? (fun n => n.name == name) with
  | some n => ⟨false, n.id, 0⟩
  | none => ⟨true, freshId, 1⟩

/-- remove_virtual_machine after datacenter resolution: for each
instance identity, _get_server_id over the prefetched server list; a
hit deletes that server id (the boot volume removal that precedes it
also only happens on a hit) and sets changed, a miss is skipped
silently. Returns the changed flag and the trace of server ids whose
delete call was issued. -/
def remove_virtual_machine (server_list : List Resource) :
    List String → Bool × List String
  | [] => (false, [])
  | i :: rest =>
    let r := remove_virtual_machine server_list rest
    match _get_server_id server_list i with
    | some sid => (true, sid :: r.2)
    | none => r

/-- delete_volume after datacenter resolution: a UUID-shaped identity
is deleted directly with no existence check; otherwise every volume in
the listed datacenter whose properties name equals the identity is
deleted (the loop has no break). Returns the changed flag and the
trace of volume ids whose delete call was issued. -/
def delete_volume (volume_list : List Resource) :
    List String → Bool × List String
  | [] => (false, [])
  | n :: rest =>
    let r := delete_volume volume_list rest
    if uuid_match n then (true, n :: r.2)
    else
      let dels := (volume_list.filter (fun v => v.name == n)).map (fun v => v.id)
      (if dels.isEmpty then r.1 else true, dels ++ r.2)

/-- delete_nic after datacenter and server resolution: a NIC name that
is not UUID-shaped is scanned for a properties name match; a miss
returns False with no delete call, a hit (or a UUID-shaped name
directly) issues the delete. Returns whether a delete call was issued
and the id it carried. -/
def delete_nic (nic_list : List Resource) (name : String) : Bool × Option String :=
  if uuid_match name then (true, some name)
  else
    match nic_list.find? (fun n => n.name == name) with
    | some n => (true, some n.id)
    | none => (false, none)

/-- Server properties the update path reads from a live server. -/
structure ServerProps where
  cores : Int
  ram : Int
  cpuFamily : String
  availabilityZone : String
deriving DecidableEq

/-- A live server with its properties bag. -/
structure Server where
  id : String
  name : String
  props : ServerProps
deriving DecidableEq

/-- Module parameters relevant to update_server, before the argument
spec applies defaults: none is a field the caller omitted. -/
structure ServerModuleParams where
  cores : Option Int
  ram : Option Int
  cpu_family : Option String
  availability_zone : Option String
deriving DecidableEq

/-- The payload client.update_server is called with. -/
structure ServerUpdatePayload where
  cores : Int
  ram : Int
  cpu_family : String
  availability_zone : String
deriving DecidableEq

/-- The argument spec of profitbricks.py main: cores defaults to 2, ram
to 2048, cpu_family to AMD_OPTERON, availability_zone to AUTO. -/
def applyServerDefaults (p : ServerModuleParams) : ServerUpdatePayload :=
  ⟨p.cores.getD 2, p.ram.getD 2048,
   p.cpu_family.getD "AMD_OPTERON", p.availability_zone.getD "AUTO"⟩

/-- The instance lookup loop of update_server: first server whose
properties name or id equals the identity. -/
def find_server (server_list : List Server) (identity : String) : Option Server :=
  server_list.find? (fun s => identity == s.name || identity == s.id)

/-- update_server for one instance identity: fail (none) when the
lookup misses; otherwise the payload sent to client.update_server is
built from the module parameters alone, with the argument spec
defaults filling omitted fields — the live server found is not
consulted for any payload field. -/
def update_server_sent (server_list : List Server) (identity : String)
    (p : ServerModuleParams) : Option ServerUpdatePayload :=
  match find_server server_list identity with
  | none => none
  | some _ => some (applyServerDefaults p)

/-- NIC properties the update path reads from a live NIC. -/
structure NicProps where
  lan : Int
  nat : Bool
  dhcp : Bool
  firewallActive : Bool
deriving DecidableEq

/-- Module parameters relevant to update_nic: none is a field the
caller omitted (the argument spec default for each is None). -/
structure NicModuleParams where
  lan : Option Int
  nat : Option Bool
  dhcp : Option Bool
  firewall_active : Option Bool
  ips : Option (List String)
deriving DecidableEq

/-- The payload client.update_nic is called with. -/
structure NicUpdatePayload where
  lan : Int
  firewall_active : Bool
  nat : Bool
  dhcp : Bool
  ips : Option (List String)
deriving DecidableEq

/-- update_nic payload construction: each of lan, firewall_active, nat
and dhcp falls back to the live NIC property when the parameter is
None; ips is passed through as given. -/
def update_nic_sent (p : NicModuleParams) (live : NicProps) : NicUpdatePayload :=
  ⟨p.lan.getD live.lan, p.firewall_active.getD live.firewallActive,
   p.nat.getD live.nat, p.dhcp.getD live.dhcp, p.ips⟩

/-- Python percent formatting of the pattern 02d: a nonnegative integer
zero-padded on the left to width two. -/
def pad2 (n : Nat) : String :=
  if n < 10 then "0" ++ toString n else toString n

/-- The auto_increment branch shared by create_virtual_machine and
create_volume: numbers is initialised to an empty set and never added
to, count_offset is 1, number_range is the half-open range from 1 of
length count plus the size of numbers, available_numbers is that range
minus numbers, and the first count of them are substituted into the
name template. fmt is the name template applied to one number. -/
def auto_increment_names (fmt : Nat → String) (count : Nat) : List String :=
  let numbers : List Nat := []
  let count_offset := 1
  let number_range := List.range' count_offset (count + numbers.length)
  let available_numbers := number_range.filter (fun n => n ∉ numbers)
  let numbers_to_use := available_numbers.take count
  numbers_to_use.map fmt

/-- Modelled from the spec: the claimed naming rule generates count
distinct names by substituting successive integers starting at 1 while
skipping numbers whose formatted name is already in use by an existing
resource. This definition follows the claim wording, not the source,
and exists to be compared against auto_increment_names. -/
def spec_names_aux (fmt : Nat → String) (existing : List String) :
    Nat → Nat → Nat → List String
  | _, _, 0 => []
  | 0, _, _ + 1 => []
  | fuel + 1, n, need + 1 =>
    if fmt n ∈ existing then spec_names_aux fmt existing fuel (n + 1) (need + 1)
    else fmt n :: spec_names_aux fmt existing fuel (n + 1) need

/-- Modelled from the spec: top level of the claimed naming rule. -/
def auto_increment_names_spec (fmt : Nat → String) (existing : List String)
    (count : Nat) : List String :=
  spec_names_aux fmt existing (count + existing.length) 1 count

/-- An API call the create paths can issue, in order. -/
inductive ApiCall
  | create
  | wait
  | fetch
deriving DecidableEq

/-- Call trace of _create_machine in profitbricks.py: create_server,
then _wait_for_completion unconditionally — the wait parameter is read
at the top of the function but never consulted — then get_server. -/
def create_machine_calls (wait : Bool) : List ApiCall :=
  let _ := wait
  [ApiCall.create, ApiCall.wait, ApiCall.fetch]

/-- Call trace of _create_volume in profitbricks_volume.py:
create_volume, then _wait_for_completion only when wait is set; the
function returns volume_response from the create call with no
re-fetch. -/
def create_volume_calls (wait : Bool) : List ApiCall :=
  ApiCall.create :: (if wait then [ApiCall.wait] else [])

/-- Call trace of the create branch of create_nic in
profitbricks_nic.py: create_nic, then _wait_for_completion only when
wait is set, then get_nic to refresh the NIC properties. -/
def create_nic_calls (wait : Bool) : List ApiCall :=
  ApiCall.create :: (if wait then [ApiCall.wait] else []) ++ [ApiCall.fetch]

/-- The name expansion of create_volume: the auto_increment branch as
in auto_increment_names, and otherwise the single name replicated
count times. -/
def create_volume_names (auto_increment : Bool) (fmt : Nat → String)
    (name : String) (count : Nat) : List String :=
  if auto_increment then auto_increment_names fmt count
  else List.replicate count name

/-- The per-name loop of create_volume: the volume list is fetched once
before the loop and never refreshed; a name _get_instance_id resolves
is skipped, any other name issues a create call and sets changed.
Returns the changed flag and the trace of names the create calls
carried. -/
def create_volume_run (volume_list : List Resource) :
    List String → Bool × List String
  | [] => (false, [])
  | n :: rest =>
    let r := create_volume_run volume_list rest
    match _get_instance_id volume_list n with
    | some _ => r
    | none => (true, n :: r.2)

/-- Poll sequence RUNNING, RUNNING, DONE and RUNNING from then on. -/
def pollsRRD : Nat → Status := fun k => if k < 2 then Status.RUNNING else Status.DONE

/-- Poll sequence RUNNING, RUNNING, FAILED and FAILED from then on. -/
def pollsRRF : Nat → Status := fun k => if k < 2 then Status.RUNNING else Status.FAILED

/-- Poll sequence that never reaches a terminal status. -/
def pollsRun : Nat → Status := fun _ => Status.RUNNING

/-- The name template of the batch naming example, web then 02d. -/
def webFmt : Nat → String := fun n => "web" ++ pad2 n

/-- A live server with non-default properties, for the update claims. -/
def liveServer : Server := ⟨"sid-1", "web", ⟨8, 4096, "INTEL_XEON", "ZONE_1"⟩⟩

lemma waitLoop_terminal (polls : Nat → Status) (msg r : String) :
    ∀ (k : Nat) (d t : Int) (j : Nat),
      (∀ i, i < k → polls (j + i) ≠ Status.DONE ∧ polls (j + i) ≠ Status.FAILED) →
      d > t + 5 * k →
      (polls (j + k) = Status.DONE →
        waitLoop polls msg r d t j = (WaitOutcome.success, j + k + 1)) ∧
      (polls (j + k) = Status.FAILED →
        waitLoop polls msg r d t j = (WaitOutcome.opFailed msg r, j + k + 1)) := by
  intro k
  induction k with
  | zero =>
    intro d t j _ hgt
    rw [waitLoop]
    rw [dif_pos (by omega : d > t)]
    constructor
    · intro hd
      simp only [Nat.add_zero] at hd
      rw [hd]
    · intro hd
      simp only [Nat.add_zero] at hd
      rw [hd]
  | succ k ih =>
    intro d t j hnt hgt
    have h0 : polls j ≠ Status.DONE ∧ polls j ≠ Status.FAILED := by
      simpa using hnt 0 (Nat.succ_pos k)
    rw [waitLoop]
    rw [dif_pos (by push_cast at hgt ⊢; omega : d > t)]
    have hrec :
        (polls (j + (k + 1)) = Status.DONE →
          waitLoop polls msg r d (t + 5) (j + 1) = (WaitOutcome.success, j + (k + 1) + 1)) ∧
        (polls (j + (k + 1)) = Status.FAILED →
          waitLoop polls msg r d (t + 5) (j + 1) = (WaitOutcome.opFailed msg r, j + (k + 1) + 1)) := by
      have := ih d (t + 5) (j + 1)
        (by
          intro i hi
          have := hnt (i + 1) (by omega)
          have he : j + (i + 1) = j + 1 + i := by omega
          rwa [he] at this)
        (by push_cast at hgt ⊢; omega)
      have he : j + 1 + k = j + (k + 1) := by omega
      rwa [he] at this
    cases hpj : polls j with
    | DONE => exact absurd hpj h0.1
    | FAILED => exact absurd hpj h0.2
    | QUEUED => exact hrec
    | RUNNING => exact hrec

lemma waitLoop_timeout (polls : Nat → Status) (msg r : String)
    (hnt : ∀ i, polls i ≠ Status.DONE ∧ polls i ≠ Status.FAILED) :
    ∀ (fuel : Nat) (d t : Int) (j : Nat), (d - t).toNat ≤ fuel →
      (waitLoop polls msg r d t j).1 = WaitOutcome.timedOut msg r := by
  intro fuel
  induction fuel with
  | zero =>
    intro d t j hf
    rw [waitLoop]
    rw [dif_neg (by omega : ¬ d > t)]
  | succ fuel ih =>
    intro d t j hf
    by_cases hdt : d > t
    · rw [waitLoop]
      rw [dif_pos hdt]
      have hj := hnt j
      cases hpj : polls j with
      | DONE => exact absurd hpj hj.1
      | FAILED => exact absurd hpj hj.2
      | QUEUED => exact ih d (t + 5) (j + 1) (by omega)
      | RUNNING => exact ih d (t + 5) (j + 1) (by omega)
    · rw [waitLoop]
      rw [dif_neg hdt]

/-- C1: for every operation handle and deadline, the waiter of
_wait_for_completion advances time in fixed 5 unit steps and (1)
returns success as soon as a poll reports DONE, after exactly one poll
per elapsed interval — in particular RUNNING, RUNNING, DONE succeeds
after exactly 3 polls; (2) raises the operation-failed error carrying
the operation message when a poll reports FAILED; (3) raises the
distinct timeout error when no poll ever reports a terminal status. -/
theorem waiter_terminal_behavior :
    (∀ (t0 w : Int) (reqId msg : String) (polls : Nat → Status) (k : Nat),
      (∀ i, i < k → polls i ≠ Status.DONE ∧ polls i ≠ Status.FAILED) →
      polls k = Status.DONE → w > 5 * (k : Int) →
      _wait_for_completion t0 (some reqId) polls w msg = (WaitOutcome.success, k + 1)) ∧
    (∀ (t0 w : Int) (reqId msg : String) (polls : Nat → Status) (k : Nat),
      (∀ i, i < k → polls i ≠ Status.DONE ∧ polls i ≠ Status.FAILED) →
      polls k = Status.FAILED → w > 5 * (k : Int) →
      _wait_for_completion t0 (some reqId) polls w msg =
        (WaitOutcome.opFailed msg reqId, k + 1)) ∧
    (∀ (t0 w : Int) (reqId msg : String) (polls : Nat → Status),
      (∀ i, polls i ≠ Status.DONE ∧ polls i ≠ Status.FAILED) →
      (_wait_for_completion t0 (some reqId) polls w msg).1 =
        WaitOutcome.timedOut msg reqId) := by
  refine ⟨?_, ?_, ?_⟩
  · intro t0 w reqId msg polls k hnt hk hw
    have := (waitLoop_terminal polls msg reqId k (t0 + w) t0 0
      (by intro i hi; simpa using hnt i hi)
      (by omega)).1 (by simpa using hk)
    simpa [_wait_for_completion] using this
  · intro t0 w reqId msg polls k hnt hk hw
    have := (waitLoop_terminal polls msg reqId k (t0 + w) t0 0
      (by intro i hi; simpa using hnt i hi)
      (by omega)).2 (by simpa using hk)
    simpa [_wait_for_completion] using this
  · intro t0 w reqId msg polls hnt
    have := waitLoop_timeout polls msg reqId hnt (t0 + w - t0).toNat (t0 + w) t0 0 (le_refl _)
    simpa [_wait_for_completion] using this

/-- Witness for C1: concrete runs of the three poll sequences of the
spec example with timeout 600. -/
theorem waiter_terminal_behavior_witness :
    _wait_for_completion 0 (some "req-1") pollsRRD 600 "create_nic" =
      (WaitOutcome.success, 3) ∧
    _wait_for_completion 0 (some "req-1") pollsRRF 600 "create_nic" =
      (WaitOutcome.opFailed "create_nic" "req-1", 3) ∧
    (_wait_for_completion 0 (some "req-1") pollsRun 600 "create_nic").1 =
      WaitOutcome.timedOut "create_nic" "req-1" :=
  ⟨waiter_terminal_behavior.1 0 600 "req-1" "create_nic" pollsRRD 2
      (by decide) (by decide) (by decide),
   waiter_terminal_behavior.2.1 0 600 "req-1" "create_nic" pollsRRF 2
      (by decide) (by decide) (by decide),
   waiter_terminal_behavior.2.2 0 600 "req-1" "create_nic" pollsRun
      (fun i => ⟨by simp [pollsRun], by simp [pollsRun]⟩)⟩

/-- C9: with a non-empty promise and a non-positive wait_timeout the
deadline check precedes the first sleep and poll, so the waiter raises
the timeout error having issued zero polls, whatever the poll sequence
would have reported; with an empty promise it returns success at once,
also with zero polls. -/
theorem waiter_nonpositive_timeout (t0 w : Int) (reqId msg : String)
    (polls : Nat → Status) :
    (w ≤ 0 → _wait_for_completion t0 (some reqId) polls w msg =
      (WaitOutcome.timedOut msg reqId, 0)) ∧
    _wait_for_completion t0 none polls w msg = (WaitOutcome.success, 0) := by
  constructor
  · intro hw
    simp only [_wait_for_completion]
    rw [waitLoop]
    rw [dif_neg (by omega : ¬ t0 + w > t0)]
  · rfl

/-- Witness for C9: wait_timeout 0 with every poll already DONE still
times out with zero polls, and an empty promise succeeds. -/
theorem waiter_nonpositive_timeout_witness :
    _wait_for_completion 0 (some "req-1") (fun _ => Status.DONE) 0 "update_nic" =
      (WaitOutcome.timedOut "update_nic" "req-1", 0) ∧
    _wait_for_completion 0 none (fun _ => Status.DONE) 600 "update_nic" =
      (WaitOutcome.success, 0) :=
  ⟨(waiter_nonpositive_timeout 0 0 "req-1" "update_nic" (fun _ => Status.DONE)).1
      (by decide),
   (waiter_nonpositive_timeout 0 600 "req-1" "update_nic" (fun _ => Status.DONE)).2⟩

lemma _get_instance_eq_find (items : List Resource) (identity : String) :
    _get_instance items identity =
      items.find? (fun r => identity == r.name || identity == r.id) := by
  induction items with
  | nil => rfl
  | cons a rest ih =>
    simp only [_get_instance]
    by_cases h : identity = a.name ∨ identity = a.id
    · rw [if_pos h, List.find?_cons_of_pos]
      simpa using h
    · rw [if_neg h, List.find?_cons_of_neg, ih]
      simpa using h

lemma _get_instance_id_eq (items : List Resource) (identity : String) :
    _get_instance_id items identity = (_get_instance items identity).map Resource.id := by
  induction items with
  | nil => rfl
  | cons a rest ih =>
    simp only [_get_instance_id, _get_instance]
    by_cases h : identity = a.name ∨ identity = a.id
    · rw [if_pos h, if_pos h]; rfl
    · rw [if_neg h, if_neg h]
      simpa [_get_instance] using ih

lemma _get_server_id_eq (items : List Resource) (identity : String) :
    _get_server_id items identity = (_get_instance items identity).map Resource.id := by
  induction items with
  | nil => rfl
  | cons a rest ih =>
    simp only [_get_server_id, _get_instance]
    by_cases h : identity = a.name ∨ identity = a.id
    · rw [if_pos h, if_pos h]; rfl
    · rw [if_neg h, if_neg h]
      simpa [_get_instance] using ih

lemma _get_datacenter_id_eq (items : List Resource) (identity : String) :
    _get_datacenter_id items identity = (_get_instance items identity).map Resource.id := by
  induction items with
  | nil => rfl
  | cons a rest ih =>
    simp only [_get_datacenter_id, _get_instance]
    by_cases h : identity = a.name ∨ identity = a.id
    · rw [if_pos h, if_pos h]; rfl
    · rw [if_neg h, if_neg h]
      simpa [_get_instance] using ih

/-- C2 counterexample: the identity string is UUID-shaped, yet
_get_datacenter_id and _get_instance_id both return the id of a
datacenter whose name equals the identity while its id differs — the
resolvers match by name even for UUID-shaped identities. -/
theorem uuid_identity_matched_by_name :
    uuid_match "aaaaaaaa-aaaa-aaaa-aaaa-aaaaaaaaaaaa" = true ∧
    _get_datacenter_id
      [⟨"00000000-0000-0000-0000-000000000000", "aaaaaaaa-aaaa-aaaa-aaaa-aaaaaaaaaaaa"⟩]
      "aaaaaaaa-aaaa-aaaa-aaaa-aaaaaaaaaaaa" =
        some "00000000-0000-0000-0000-000000000000" ∧
    _get_instance_id
      [⟨"00000000-0000-0000-0000-000000000000", "aaaaaaaa-aaaa-aaaa-aaaa-aaaaaaaaaaaa"⟩]
      "aaaaaaaa-aaaa-aaaa-aaaa-aaaaaaaaaaaa" =
        some "00000000-0000-0000-0000-000000000000" ∧
    "00000000-0000-0000-0000-000000000000" ≠ "aaaaaaaa-aaaa-aaaa-aaaa-aaaaaaaaaaaa" := by
  refine ⟨by decide, rfl, rfl, by decide⟩

/-- C2 as amended: the four resolver helpers treat every identity
string alike, UUID-shaped or not, returning the first resource whose
name or id equals the identity; only the NIC-module resolution pattern
uses a UUID-shaped string as the id directly without scanning, and for
a non-UUID string takes the first name match. -/
theorem resolver_first_name_or_id_match (items : List Resource) (identity : String) :
    _get_datacenter_id items identity =
      (items.find? (fun r => identity == r.name || identity == r.id)).map Resource.id ∧
    _get_server_id items identity =
      (items.find? (fun r => identity == r.name || identity == r.id)).map Resource.id ∧
    _get_instance_id items identity =
      (items.find? (fun r => identity == r.name || identity == r.id)).map Resource.id ∧
    _get_instance items identity =
      items.find? (fun r => identity == r.name || identity == r.id) ∧
    (uuid_match identity = true → resolve_by_uuid_or_name identity items = identity) ∧
    (uuid_match identity = false → ∀ r : Resource,
      items.find? (fun x => identity = x.name) = some r →
      resolve_by_uuid_or_name identity items = r.id) := by
  refine ⟨?_, ?_, ?_, ?_, ?_, ?_⟩
  · rw [_get_datacenter_id_eq, _get_instance_eq_find]
  · rw [_get_server_id_eq, _get_instance_eq_find]
  · rw [_get_instance_id_eq, _get_instance_eq_find]
  · exact _get_instance_eq_find items identity
  · intro hu
    simp [resolve_by_uuid_or_name, hu]
  · intro hu r hr
    simp [resolve_by_uuid_or_name, hu, hr]

/-- Witness for C2 as amended: a UUID-shaped identity bypasses the
NIC-module scan and a plain name is resolved to the first name match;
the resolver helpers evaluated on the same one-element collection. -/
theorem resolver_first_name_or_id_match_witness :
    _get_datacenter_id [⟨"id-1", "nm"⟩] "nm" =
      (([⟨"id-1", "nm"⟩] : List Resource).find?
        (fun r => "nm" == r.name || "nm" == r.id)).map Resource.id ∧
    resolve_by_uuid_or_name "aaaaaaaa-aaaa-aaaa-aaaa-aaaaaaaaaaaa" [⟨"id-1", "nm"⟩] =
      "aaaaaaaa-aaaa-aaaa-aaaa-aaaaaaaaaaaa" ∧
    resolve_by_uuid_or_name "nm" [⟨"id-1", "nm"⟩] = "id-1" :=
  ⟨(resolver_first_name_or_id_match [⟨"id-1", "nm"⟩] "nm").1,
   (resolver_first_name_or_id_match [⟨"id-1", "nm"⟩]
      "aaaaaaaa-aaaa-aaaa-aaaa-aaaaaaaaaaaa").2.2.2.2.1 (by decide),
   (resolver_first_name_or_id_match [⟨"id-1", "nm"⟩] "nm").2.2.2.2.2
      (by decide) ⟨"id-1", "nm"⟩ (by decide)⟩

lemma _get_instance_append_self (l : List Resource) (r : Resource) (n : String)
    (h : _get_instance l n = none) (hn : n = r.name) :
    _get_instance (l ++ [r]) n = some r := by
  rw [_get_instance_eq_find] at h ⊢
  rw [List.find?_append, h]
  simp [hn]

/-- C3: create is idempotent. A first run of create_virtual_machine on
a state with no resource of the given name issues one create call,
reports changed, and returns the fresh resource; a second run against
the state holding that resource issues no create call, reports changed
false and returns the same resource id. The same holds for create_nic
with its name-only lookup. -/
theorem create_idempotent (server_list : List Resource) (freshId : String → String)
    (name : String) (habs : _get_instance server_list name = none) :
    (create_virtual_machine server_list freshId [name]).changed = true ∧
    (create_virtual_machine server_list freshId [name]).createCalls = [name] ∧
    (create_virtual_machine server_list freshId [name]).machines =
      [Resource.mk (freshId name) name] ∧
    create_virtual_machine (server_list ++ [Resource.mk (freshId name) name])
        freshId [name] =
      ⟨false, [Resource.mk (freshId name) name], []⟩ ∧
    (∀ (nic_list : List Resource) (freshNic nm : String),
      nic_list.find? (fun n => n.name == nm) = none →
      create_nic nic_list freshNic nm = ⟨true, freshNic, 1⟩ ∧
      create_nic (nic_list ++ [Resource.mk freshNic nm]) freshNic nm =
        ⟨false, freshNic, 0⟩) := by
  have h2 : _get_instance (server_list ++ [Resource.mk (freshId name) name]) name =
      some (Resource.mk (freshId name) name) :=
    _get_instance_append_self server_list _ name habs rfl
  refine ⟨?_, ?_, ?_, ?_, ?_⟩
  · simp [create_virtual_machine, habs]
  · simp [create_virtual_machine, habs]
  · simp [create_virtual_machine, habs]
  · simp [create_virtual_machine, h2]
  · intro nic_list freshNic nm hfind
    constructor
    · simp [create_nic, hfind]
    · simp [create_nic, List.find?_append, hfind]

/-- Witness for C3: a first create of web01 in an empty datacenter
issues the call, and a second run over the resulting state is
unchanged and returns the same id; likewise for a NIC. -/
theorem create_idempotent_witness :
    (create_virtual_machine [] (fun _ => "srv-id-1") ["web01"]).changed = true ∧
    create_virtual_machine [Resource.mk "srv-id-1" "web01"]
        (fun _ => "srv-id-1") ["web01"] =
      ⟨false, [Resource.mk "srv-id-1" "web01"], []⟩ ∧
    create_nic [] "nic-id-1" "eth0" = ⟨true, "nic-id-1", 1⟩ ∧
    create_nic [Resource.mk "nic-id-1" "eth0"] "nic-id-1" "eth0" =
      ⟨false, "nic-id-1", 0⟩ :=
  have h := create_idempotent [] (fun _ => "srv-id-1") "web01" rfl
  ⟨h.1, h.2.2.2.1, (h.2.2.2.2 [] "nic-id-1" "eth0" rfl).1,
    (h.2.2.2.2 [] "nic-id-1" "eth0" rfl).2⟩

/-- C4 counterexample: a UUID-shaped volume identity that resolves to
no existing volume — the datacenter holds none — still causes
delete_volume to issue a delete call carrying it and to report changed
true, because the UUID branch performs no existence check. -/
theorem delete_volume_uuid_no_existence_check :
    _get_instance_id [] "aaaaaaaa-aaaa-aaaa-aaaa-aaaaaaaaaaaa" = none ∧
    delete_volume [] ["aaaaaaaa-aaaa-aaaa-aaaa-aaaaaaaaaaaa"] =
      (true, ["aaaaaaaa-aaaa-aaaa-aaaa-aaaaaaaaaaaa"]) := by
  exact ⟨rfl, rfl⟩

/-- C4 as amended: delete of an absent resource is a no-op with
changed false for server identities (resolved by name or id) and for
volume and NIC identities that are not UUID-shaped; a UUID-shaped
volume or NIC identity is passed straight to the delete call with no
existence check, as the counterexample shows. -/
theorem delete_absent_noop :
    (∀ (server_list : List Resource) (ids : List String),
      (∀ i ∈ ids, _get_server_id server_list i = none) →
      remove_virtual_machine server_list ids = (false, [])) ∧
    (∀ (volume_list : List Resource) (ids : List String),
      (∀ i ∈ ids, uuid_match i = false ∧
        volume_list.filter (fun v => v.name == i) = []) →
      delete_volume volume_list ids = (false, [])) ∧
    (∀ (nic_list : List Resource) (nm : String),
      uuid_match nm = false → nic_list.find? (fun n => n.name == nm) = none →
      delete_nic nic_list nm = (false, none)) := by
  refine ⟨?_, ?_, ?_⟩
  · intro server_list ids h
    induction ids with
    | nil => rfl
    | cons i rest ih =>
      have hi := h i (List.mem_cons_self i rest)
      simp only [remove_virtual_machine, hi]
      exact ih (fun j hj => h j (List.mem_cons_of_mem i hj))
  · intro volume_list ids h
    induction ids with
    | nil => rfl
    | cons i rest ih =>
      have hi := h i (List.mem_cons_self i rest)
      have hrest := ih (fun j hj => h j (List.mem_cons_of_mem i hj))
      simp [delete_volume, hi.1, hi.2, hrest]
  · intro nic_list nm hu hfind
    simp [delete_nic, hu, hfind]

/-- Witness for C4 as amended: deleting the absent server web09, the
absent volume vol09 and the absent NIC eth9 from an empty state
reports changed false and issues no delete call. -/
theorem delete_absent_noop_witness :
    remove_virtual_machine [] ["web09"] = (false, []) ∧
    delete_volume [] ["vol09"] = (false, []) ∧
    delete_nic [] "eth9" = (false, none) :=
  ⟨delete_absent_noop.1 [] ["web09"] (by decide),
   delete_absent_noop.2.1 [] ["vol09"] (by decide),
   delete_absent_noop.2.2 [] "eth9" (by decide) rfl⟩

/-- C5 counterexample: an update_server invocation that omits every
field sends the module defaults, not the live values: the live server
has 8 cores but the payload sent carries cores 2. Omitted fields are
reset to module defaults on the server update path. -/
theorem update_server_sends_defaults_not_live :
    find_server [liveServer] "web" = some liveServer ∧
    liveServer.props.cores = 8 ∧
    update_server_sent [liveServer] "web" ⟨none, none, none, none⟩ =
      some ⟨2, 2048, "AMD_OPTERON", "AUTO"⟩ ∧
    (2 : Int) ≠ 8 := by
  exact ⟨rfl, rfl, rfl, by decide⟩

/-- C5 as amended: only update_nic merges omitted fields from the live
resource, and only for lan, nat, dhcp and firewall_active — ips is
sent exactly as given; update_server sends the module parameters with
the argument spec defaults filling omitted fields, never consulting
the live server. -/
theorem update_merge_amended (p : NicModuleParams) (live : NicProps)
    (sl : List Server) (identity : String) (q : ServerModuleParams) :
    (p.lan = none → (update_nic_sent p live).lan = live.lan) ∧
    (p.nat = none → (update_nic_sent p live).nat = live.nat) ∧
    (p.dhcp = none → (update_nic_sent p live).dhcp = live.dhcp) ∧
    (p.firewall_active = none →
      (update_nic_sent p live).firewall_active = live.firewallActive) ∧
    (update_nic_sent p live).ips = p.ips ∧
    (∀ pl, update_server_sent sl identity q = some pl →
      (q.cores = none → pl.cores = 2) ∧
      (q.ram = none → pl.ram = 2048) ∧
      (q.cpu_family = none → pl.cpu_family = "AMD_OPTERON") ∧
      (q.availability_zone = none → pl.availability_zone = "AUTO")) := by
  refine ⟨?_, ?_, ?_, ?_, rfl, ?_⟩
  · intro h; simp [update_nic_sent, h]
  · intro h; simp [update_nic_sent, h]
  · intro h; simp [update_nic_sent, h]
  · intro h; simp [update_nic_sent, h]
  · intro pl hpl
    cases hfs : find_server sl identity with
    | none => simp [update_server_sent, hfs] at hpl
    | some s =>
      simp only [update_server_sent, hfs] at hpl
      have hpl2 : applyServerDefaults q = pl := by
        injection hpl
      subst hpl2
      refine ⟨?_, ?_, ?_, ?_⟩ <;> intro h <;> simp [applyServerDefaults, h]

/-- Witness for C5 as amended: an all-omitted NIC update keeps the
live lan value 7 and passes ips through as none, while an all-omitted
server update against the live server sends the default 2 cores. -/
theorem update_merge_amended_witness :
    (update_nic_sent ⟨none, none, none, none, none⟩ ⟨7, true, false, true⟩).lan = 7 ∧
    (update_nic_sent ⟨none, none, none, none, none⟩ ⟨7, true, false, true⟩).ips = none ∧
    (⟨2, 2048, "AMD_OPTERON", "AUTO"⟩ : ServerUpdatePayload).cores = 2 :=
  have h := update_merge_amended ⟨none, none, none, none, none⟩ ⟨7, true, false, true⟩
    [liveServer] "web" ⟨none, none, none, none⟩
  ⟨h.1 rfl, h.2.2.2.2.1,
   (h.2.2.2.2.2 ⟨2, 2048, "AMD_OPTERON", "AUTO"⟩ rfl).1 rfl⟩

/-- C6 counterexample: with template web02d and an existing resource
web01, the generated numbers are not shifted past the one in use: the
code still generates web01, web02, web03, while the claimed rule would
generate web02, web03, web04. -/
theorem auto_increment_ignores_existing :
    auto_increment_names webFmt 3 = ["web01", "web02", "web03"] ∧
    "web01" ∈ auto_increment_names webFmt 3 ∧
    auto_increment_names_spec webFmt ["web01"] 3 = ["web02", "web03", "web04"] ∧
    auto_increment_names webFmt 3 ≠ auto_increment_names_spec webFmt ["web01"] 3 := by
  exact ⟨rfl, by decide, rfl, by decide⟩

/-- C6 as amended: the generated numbers are always the successive
integers 1 to count — the set of numbers in use is initialised empty
and never filled, so nothing is skipped at generation time; with no
pre-existing matches the web02d count 3 name set is exactly web01,
web02, web03; the creation loop afterwards skips any generated name
that already resolves to an existing resource, so fewer than count
resources may be created. -/
theorem auto_increment_amended :
    (∀ (fmt : Nat → String) (count : Nat),
      auto_increment_names fmt count = (List.range' 1 count).map fmt) ∧
    auto_increment_names webFmt 3 = ["web01", "web02", "web03"] ∧
    (∀ (server_list : List Resource) (freshId : String → String) (names : List String),
      (create_virtual_machine server_list freshId names).createCalls =
        names.filter (fun n => (_get_instance server_list n).isNone)) := by
  refine ⟨?_, rfl, ?_⟩
  · intro fmt count
    simp only [auto_increment_names, List.length_nil, Nat.add_zero]
    rw [List.filter_eq_self.mpr (by simp)]
    rw [List.take_of_length_le (by simp)]
  · intro sl fid names
    induction names with
    | nil => rfl
    | cons n rest ih =>
      cases hg : _get_instance sl n with
      | some s => simp [create_virtual_machine, List.filter_cons, hg, ih]
      | none => simp [create_virtual_machine, List.filter_cons, hg, ih]

/-- C7 counterexample: two servers share the name web; the resolver
does not fail on the ambiguity — it returns the first id A, and the
delete path proceeds against that guessed target. -/
theorem ambiguous_name_first_match_wins :
    ([⟨"A", "web"⟩, ⟨"B", "web"⟩] : List Resource).countP
      (fun s => "web" == s.name || "web" == s.id) = 2 ∧
    _get_server_id [⟨"A", "web"⟩, ⟨"B", "web"⟩] "web" = some "A" ∧
    remove_virtual_machine [⟨"A", "web"⟩, ⟨"B", "web"⟩] ["web"] = (true, ["A"]) := by
  exact ⟨by decide, rfl, rfl⟩

/-- C7 as amended: every mutation is keyed by the id of the first
resource matching the identity by name or id — duplicates are not
detected, first match wins; an absent match makes the update path fail
before sending a payload and makes the delete path a no-op. -/
theorem mutation_keyed_first_match :
    (∀ (l1 l2 : List Resource) (r : Resource) (identity : String),
      (∀ s ∈ l1, ¬(identity = s.name ∨ identity = s.id)) →
      (identity = r.name ∨ identity = r.id) →
      _get_server_id (l1 ++ r :: l2) identity = some r.id ∧
      remove_virtual_machine (l1 ++ r :: l2) [identity] = (true, [r.id])) ∧
    (∀ (server_list : List Server) (identity : String) (q : ServerModuleParams),
      find_server server_list identity = none →
      update_server_sent server_list identity q = none) ∧
    (∀ (server_list : List Resource) (identity : String),
      _get_server_id server_list identity = none →
      remove_virtual_machine server_list [identity] = (false, [])) := by
  refine ⟨?_, ?_, ?_⟩
  · intro l1 l2 r identity hl1 hr
    have hfind : _get_server_id (l1 ++ r :: l2) identity = some r.id := by
      rw [_get_server_id_eq, _get_instance_eq_find, List.find?_append]
      have h1 : l1.find? (fun x => identity == x.name || identity == x.id) = none :=
        List.find?_eq_none.mpr (by intro x hx; simpa using hl1 x hx)
      rw [h1, List.find?_cons_of_pos _ (by simpa using hr)]
      rfl
    exact ⟨hfind, by simp [remove_virtual_machine, hfind]⟩
  · intro server_list identity q h
    simp [update_server_sent, h]
  · intro server_list identity h
    simp [remove_virtual_machine, h]

/-- Witness for C7 as amended: with an unrelated server first and two
servers named web behind it, the delete is keyed to the id of the
first web match; an absent identity fails the update lookup and
no-ops the delete. -/
theorem mutation_keyed_first_match_witness :
    _get_server_id [⟨"C", "other"⟩, ⟨"A", "web"⟩, ⟨"B", "web"⟩] "web" = some "A" ∧
    remove_virtual_machine [⟨"C", "other"⟩, ⟨"A", "web"⟩, ⟨"B", "web"⟩] ["web"] =
      (true, ["A"]) ∧
    update_server_sent [] "web" ⟨none, none, none, none⟩ = none ∧
    remove_virtual_machine [] ["web"] = (false, []) :=
  have h := mutation_keyed_first_match.1 [⟨"C", "other"⟩] [⟨"B", "web"⟩]
    ⟨"A", "web"⟩ "web" (by decide) (by decide)
  ⟨h.1, h.2,
   mutation_keyed_first_match.2.1 [] "web" ⟨none, none, none, none⟩ rfl,
   mutation_keyed_first_match.2.2 [] "web" rfl⟩

/-- C8 counterexample: the server create path waits even when waiting
was not requested — its trace with wait false still contains the wait
call — and the volume create path never re-fetches: its trace with
wait true contains no fetch call, the raw create response being
returned instead. -/
theorem create_path_divergences :
    create_machine_calls false = [ApiCall.create, ApiCall.wait, ApiCall.fetch] ∧
    ApiCall.wait ∈ create_machine_calls false ∧
    ApiCall.fetch ∉ create_volume_calls true := by
  exact ⟨rfl, by decide, by decide⟩

/-- C8 as amended: on the create path with no matching resource, the
NIC path issues the create, waits exactly when requested and then
re-fetches; the server path issues the create, always waits regardless
of the wait parameter, then re-fetches; the volume path issues the
create, waits exactly when requested, and returns the raw create
response with no re-fetch. -/
theorem create_path_amended (w : Bool) :
    ApiCall.wait ∈ create_machine_calls w ∧
    ApiCall.fetch ∈ create_machine_calls w ∧
    (ApiCall.wait ∈ create_volume_calls w ↔ w = true) ∧
    ApiCall.fetch ∉ create_volume_calls w ∧
    (ApiCall.wait ∈ create_nic_calls w ↔ w = true) ∧
    ApiCall.fetch ∈ create_nic_calls w ∧
    (∀ (nic_list : List Resource) (freshNic nm : String),
      nic_list.find? (fun n => n.name == nm) = none →
      create_nic nic_list freshNic nm = ⟨true, freshNic, 1⟩) := by
  refine ⟨?_, ?_, ?_, ?_, ?_, ?_, ?_⟩
  · cases w <;> decide
  · cases w <;> decide
  · cases w <;> decide
  · cases w <;> decide
  · cases w <;> decide
  · cases w <;> decide
  · intro nic_list freshNic nm hfind
    simp [create_nic, hfind]

/-- Witness for C8 as amended: evaluated with wait false, and a NIC
create against an empty NIC list. -/
theorem create_path_amended_witness :
    ApiCall.wait ∈ create_machine_calls false ∧
    ApiCall.fetch ∉ create_volume_calls false ∧
    create_nic [] "nic-id-2" "eth1" = ⟨true, "nic-id-2", 1⟩ :=
  ⟨(create_path_amended false).1,
   (create_path_amended false).2.2.2.1,
   (create_path_amended false).2.2.2.2.2.2 [] "nic-id-2" "eth1" rfl⟩

lemma create_volume_run_replicate (volume_list : List Resource) (name : String)
    (habs : _get_instance_id volume_list name = none) :
    ∀ c : Nat, create_volume_run volume_list (List.replicate c name) =
      (decide (0 < c), List.replicate c name) := by
  intro c
  induction c with
  | zero => rfl
  | succ c ih =>
    simp only [List.replicate_succ, create_volume_run, habs, ih]
    simp

/-- C10: with auto_increment false and a positive count, create_volume
expands the name list to count copies of the same name; the volume
list is fetched once before the loop, so in a datacenter holding no
volume of that name every iteration misses the lookup and issues a
create call — count create calls all carrying the identical name. -/
theorem batch_duplicate_creates (volume_list : List Resource) (fmt : Nat → String)
    (name : String) (count : Nat)
    (habs : _get_instance_id volume_list name = none) (hc : 0 < count) :
    create_volume_names false fmt name count = List.replicate count name ∧
    create_volume_run volume_list (List.replicate count name) =
      (true, List.replicate count name) ∧
    (create_volume_run volume_list (List.replicate count name)).2.length = count := by
  have h := create_volume_run_replicate volume_list name habs count
  refine ⟨by simp [create_volume_names], ?_, ?_⟩
  · rw [h]
    simp [hc]
  · rw [h]
    simp

/-- Witness for C10: three copies of the name data against an empty
datacenter issue three create calls all named data. -/
theorem batch_duplicate_creates_witness :
    create_volume_names false webFmt "data" 3 = List.replicate 3 "data" ∧
    create_volume_run [] (List.replicate 3 "data") = (true, List.replicate 3 "data") ∧
    (create_volume_run [] (List.replicate 3 "data")).2.length = 3 :=
  have h := batch_duplicate_creates [] webFmt "data" 3 rfl (by decide)
  ⟨h.1, h.2.1, h.2.2⟩

end ProfitBricks
